import Mathlib

/-!
Verification of the `myproject` Django repository: a "hello" app with a
`Message` model plus a list view, and a "gallery" app with an image-upload
flow (`PostListView`, `image_upload`, `success`) and static URL routing
tables.  The handlers in `gallery/views.py` and the routing tables in
`gallery/urls.py` / `hello/urls.py`, together with the `Message` model of
`hello/models.py`, are embedded below; parts of the repository that the
provided sources only reference (`gallery/models.py`, `gallery/forms.py`,
`hello/views.py`) are modelled from the specification, as marked in their
doc comments.
-/

namespace MyProject

/-- A file written to the default file-storage backend, identified by name. -/
structure StoredFile where
  name : String
deriving DecidableEq, Repr

/-- Modelled from the spec: `gallery/models.py` (the `Post` model) is not in
the provided sources.  The spec describes `Post` as "{ implicit identity,
image file reference, uploaded via form }". -/
structure Post where
  id : Nat
  image : String
deriving DecidableEq, Repr

/-- The `Message` model of `hello/models.py`: a `message_text` CharField with
`max_length=250` and a `date` DateTimeField with `auto_now_add=True`
(timestamps abstracted to naturals). -/
structure Message where
  message_text : String
  date : Nat
deriving DecidableEq, Repr

/-- The `__str__` method of `Message` returns `self.message_text`. -/
def Message.str (m : Message) : String :=
  m.message_text

/-- Creation of a `Message` as declared by `hello/models.py`: the ORM
enforces the declared `max_length=250` bound on `message_text`, and
`auto_now_add=True` makes the `date` field the creation time `now`, never a
caller-supplied value. -/
def Message.create (text : String) (now : Nat) : Option Message :=
  if text.length ≤ 250 then some ⟨text, now⟩ else none

/-- The persistent store backing the ORM: `Post` rows, `Message` rows, and
files written by the file-storage backend. -/
structure Store where
  posts : List Post
  messages : List Message
  files : List StoredFile
deriving DecidableEq, Repr

/-- The initial store, before any request has been served. -/
def Store.empty : Store :=
  ⟨[], [], []⟩

/-- An incoming HTTP request: its method, the submitted form fields
(`request.POST`) and the submitted files (`request.FILES`, mapping a field
name to the uploaded file's name). -/
structure Request where
  method : String
  POST : List (String × String)
  FILES : List (String × String)
deriving DecidableEq, Repr

/-- Modelled from the spec: `gallery/forms.py` (`UploadForm`) is not in the
provided sources.  The spec describes a "declarative binding from submitted
multipart input to a `Post` record, including built-in field validation
(required-ness, type coercion) and a save operation that writes the record
and associated file to storage".  `bound = none` is the unbound form
`UploadForm()`; `bound = some (fields, files)` is
`UploadForm(request.POST, request.FILES)`. -/
structure UploadForm where
  bound : Option (List (String × String) × List (String × String))
deriving DecidableEq, Repr

/-- The unbound form `UploadForm()`. -/
def UploadForm.empty : UploadForm :=
  ⟨none⟩

/-- Binding `UploadForm(request.POST, request.FILES)`. -/
def bindUploadForm (request : Request) : UploadForm :=
  ⟨some (request.POST, request.FILES)⟩

/-- The file submitted for the form's image field, when one was submitted. -/
def UploadForm.imageFile (f : UploadForm) : Option String :=
  f.bound.bind (fun b => b.2.lookup "image")

/-- Whether the string `name` ends with the string `ext`, computed over the
underlying character lists. -/
def strEndsWith (name ext : String) : Bool :=
  name.data.drop (name.data.length - ext.data.length) == ext.data

/-- Modelled from the spec: the file-type constraint "as declared by the
form, not shown in provided source" — the uploaded file must be an image. -/
def isImageFile (name : String) : Bool :=
  strEndsWith name ".png" || strEndsWith name ".jpg" ||
    strEndsWith name ".jpeg" || strEndsWith name ".gif"

/-- Modelled from the spec: `form.is_valid()` checks "presence and file-type
constraints as declared by the form": an image file must be present and of
an image type. -/
def UploadForm.is_valid (f : UploadForm) : Bool :=
  match f.imageFile with
  | some fname => isImageFile fname
  | none => false

/-- Modelled from the spec: `form.save()` persists the `Post` record and
writes the uploaded file to storage (the "file storage side effect"). -/
def UploadForm.save (f : UploadForm) (st : Store) : Store :=
  match f.imageFile with
  | some fname =>
      { st with
        posts := st.posts ++ [⟨st.posts.length, fname⟩],
        files := st.files ++ [⟨fname⟩] }
  | none => st

/-- The value a handler returns: a rendered template (HTTP 200), possibly
carrying a form or a fetched record list in its context, or a redirect
(HTTP 302) to a named route. -/
inductive Response where
  | rendered (template : String) (form : Option UploadForm)
  | renderedPosts (template : String) (posts : List Post)
  | renderedMessages (template : String) (messages : List Message)
  | redirect (target : String)
deriving DecidableEq, Repr

/-- The HTTP status code of a response: `redirect` is 302, `render` is 200. -/
def Response.status : Response → Nat
  | .redirect _ => 302
  | _ => 200

/-- The `image_upload` handler of `gallery/views.py`: on POST, bind the form
to the submitted fields and files; if valid, save and redirect to
`gallery:success`; otherwise fall through to rendering the upload template
with the bound form.  On any other method, render the upload template with
an unbound form. -/
def image_upload (request : Request) (st : Store) : Response × Store :=
  if request.method = "POST" then
    if (bindUploadForm request).is_valid then
      (Response.redirect "gallery:success", (bindUploadForm request).save st)
    else
      (Response.rendered "gallery/upload.html" (some (bindUploadForm request)), st)
  else
    (Response.rendered "gallery/upload.html" (some UploadForm.empty), st)

/-- The `success` handler of `gallery/views.py`: render
`gallery/success.html` with an empty context; no store access. -/
def success (_request : Request) (st : Store) : Response × Store :=
  (Response.rendered "gallery/success.html" none, st)

/-- The `PostListView` of `gallery/views.py`: a `ListView` over `Post`
rendering `gallery/index.html` with all stored posts as context. -/
def PostListView (_request : Request) (st : Store) : Response × Store :=
  (Response.renderedPosts "gallery/index.html" st.posts, st)

/-- Modelled from the spec: `hello/views.py` (`IndexView`) is not in the
provided sources.  The spec says it has the "same shape as 4.1" —
a generic list view over `Message`. -/
def IndexView (_request : Request) (st : Store) : Response × Store :=
  (Response.renderedMessages "hello/index.html" st.messages, st)

/-- Modelled from the spec: `hello/views.py` (`second`) is not in the
provided sources.  The spec calls it "a placeholder handler; no additional
logic" — a plain render with no store access. -/
def second (_request : Request) (st : Store) : Response × Store :=
  (Response.rendered "hello/second.html" none, st)

/-- A routing-table entry: `path(route, handler, name)`. -/
structure Route where
  path : String
  handler : String
  name : String
deriving DecidableEq, Repr

/-- The `app_name` of `gallery/urls.py`. -/
def gallery_app_name : String := "gallery"

/-- The `urlpatterns` table of `gallery/urls.py`. -/
def gallery_urlpatterns : List Route :=
  [⟨"", "PostListView", "index"⟩,
   ⟨"image_upload", "image_upload", "image_upload"⟩,
   ⟨"success", "success", "success"⟩]

/-- The `app_name` of `hello/urls.py`. -/
def hello_app_name : String := "hello"

/-- The `urlpatterns` table of `hello/urls.py` (the commented-out
`path('', views.index, ...)` line is not a route). -/
def hello_urlpatterns : List Route :=
  [⟨"", "IndexView", "index"⟩,
   ⟨"second/", "second", "second"⟩]

/-- One request served by some handler of the repository, taking the store
from `s` to `t`. -/
inductive Step : Store → Store → Prop where
  | upload (req : Request) (st : Store) : Step st (image_upload req st).2
  | listPosts (req : Request) (st : Store) : Step st (PostListView req st).2
  | succPage (req : Request) (st : Store) : Step st (success req st).2
  | listMessages (req : Request) (st : Store) : Step st (IndexView req st).2
  | secondPage (req : Request) (st : Store) : Step st (second req st).2

/-- A store reachable from the initial empty store by serving requests. -/
inductive Reachable : Store → Prop where
  | init : Reachable Store.empty
  | step {s t : Store} : Reachable s → Step s t → Reachable t

/-- Validity of the bound form is exactly the presence of a submitted image
file of an image type. -/
theorem UploadForm.is_valid_iff (f : UploadForm) :
    f.is_valid = true ↔
      ∃ fname, f.imageFile = some fname ∧ isImageFile fname = true := by
  unfold UploadForm.is_valid
  cases h : f.imageFile <;> simp

/-- Saving a form whose image file is `fname` appends one `Post` and one
stored file. -/
theorem UploadForm.save_eq (f : UploadForm) (st : Store) (fname : String)
    (h : f.imageFile = some fname) :
    f.save st =
      { st with
        posts := st.posts ++ [⟨st.posts.length, fname⟩],
        files := st.files ++ [⟨fname⟩] } := by
  unfold UploadForm.save
  rw [h]

/-- C1: a POST request to `image_upload` whose submitted fields and files
pass the upload form's validation persists exactly one new `Post` record,
writes exactly one new file to storage, leaves the messages unchanged, and
returns a redirect to the `success` view. -/
theorem image_upload_valid_post (req : Request) (st : Store)
    (hm : req.method = "POST")
    (hv : (bindUploadForm req).is_valid = true) :
    ∃ p f,
      (image_upload req st).2.posts = st.posts ++ [p] ∧
      (image_upload req st).2.files = st.files ++ [f] ∧
      (image_upload req st).2.messages = st.messages ∧
      (image_upload req st).1 = Response.redirect "gallery:success" := by
  obtain ⟨fname, hf, _⟩ := (UploadForm.is_valid_iff _).mp hv
  refine ⟨⟨st.posts.length, fname⟩, ⟨fname⟩, ?_, ?_, ?_, ?_⟩ <;>
    simp [image_upload, hm, hv, UploadForm.save_eq _ st fname hf]

/-- Witness for C1 at a concrete valid POST request on the empty store. -/
theorem image_upload_valid_post_witness :
    ∃ p f,
      (image_upload ⟨"POST", [], [("image", "cat.png")]⟩ Store.empty).2.posts =
        Store.empty.posts ++ [p] ∧
      (image_upload ⟨"POST", [], [("image", "cat.png")]⟩ Store.empty).2.files =
        Store.empty.files ++ [f] ∧
      (image_upload ⟨"POST", [], [("image", "cat.png")]⟩ Store.empty).2.messages =
        Store.empty.messages ∧
      (image_upload ⟨"POST", [], [("image", "cat.png")]⟩ Store.empty).1 =
        Response.redirect "gallery:success" :=
  image_upload_valid_post ⟨"POST", [], [("image", "cat.png")]⟩ Store.empty rfl
    (by decide)

/-- C2: a POST request to `image_upload` whose submitted data fails the
form's validation returns HTTP 200 rendering the upload template with the
bound form, and the store — in particular the set of `Post` records — is
unchanged. -/
theorem image_upload_invalid_post (req : Request) (st : Store)
    (hm : req.method = "POST")
    (hv : (bindUploadForm req).is_valid = false) :
    (image_upload req st).1 =
      Response.rendered "gallery/upload.html" (some (bindUploadForm req)) ∧
    ((image_upload req st).1).status = 200 ∧
    (image_upload req st).2 = st := by
  simp [image_upload, hm, hv, Response.status]

/-- Witness for C2 at a concrete POST request with no file submitted. -/
theorem image_upload_invalid_post_witness :
    (image_upload ⟨"POST", [], []⟩ Store.empty).1 =
      Response.rendered "gallery/upload.html"
        (some (bindUploadForm ⟨"POST", [], []⟩)) ∧
    ((image_upload ⟨"POST", [], []⟩ Store.empty).1).status = 200 ∧
    (image_upload ⟨"POST", [], []⟩ Store.empty).2 = Store.empty :=
  image_upload_invalid_post ⟨"POST", [], []⟩ Store.empty rfl (by decide)

/-- C3: in every reachable store, every stored `Post` passed the form's
validation rules — no operation of the repository stores a `Post` that did
not pass validation. -/
theorem reachable_posts_validated (st : Store) (h : Reachable st) :
    st.posts.all (fun p => isImageFile p.image) = true := by
  induction h with
  | init => rfl
  | step hr hs ih =>
      cases hs with
      | upload req s =>
          unfold image_upload
          by_cases hm : req.method = "POST"
          · by_cases hv : (bindUploadForm req).is_valid = true
            · obtain ⟨fname, hf, himg⟩ := (UploadForm.is_valid_iff _).mp hv
              simp [hm, hv, UploadForm.save_eq _ _ fname hf, List.all_append,
                ih, himg]
            · simp [hm, hv, ih]
          · simp [hm, ih]
      | listPosts req s => simpa [PostListView] using ih
      | succPage req s => simpa [success] using ih
      | listMessages req s => simpa [IndexView] using ih
      | secondPage req s => simpa [second] using ih

/-- Witness for C3 at the store reached by one valid upload from the empty
store. -/
theorem reachable_posts_validated_witness :
    ((image_upload ⟨"POST", [], [("image", "cat.png")]⟩ Store.empty).2).posts.all
      (fun p => isImageFile p.image) = true :=
  reachable_posts_validated _
    (Reachable.step Reachable.init
      (Step.upload ⟨"POST", [], [("image", "cat.png")]⟩ Store.empty))

/-- C4: a GET request to `image_upload` returns HTTP 200 rendering the
upload template with the unbound form, leaving the store unchanged. -/
theorem image_upload_get (req : Request) (st : Store)
    (hm : req.method = "GET") :
    (image_upload req st).1 =
      Response.rendered "gallery/upload.html" (some UploadForm.empty) ∧
    ((image_upload req st).1).status = 200 ∧
    (image_upload req st).2 = st := by
  have hne : ¬ req.method = "POST" := by rw [hm]; decide
  simp [image_upload, hne, Response.status]

/-- Witness for C4 at a concrete GET request. -/
theorem image_upload_get_witness :
    (image_upload ⟨"GET", [], []⟩ Store.empty).1 =
      Response.rendered "gallery/upload.html" (some UploadForm.empty) ∧
    ((image_upload ⟨"GET", [], []⟩ Store.empty).1).status = 200 ∧
    (image_upload ⟨"GET", [], []⟩ Store.empty).2 = Store.empty :=
  image_upload_get ⟨"GET", [], []⟩ Store.empty rfl

/-- C5: for every state of the store, `PostListView` renders exactly the
stored `Post` records and `IndexView` renders exactly the stored `Message`
records, both with HTTP 200 and without modifying the store — the rendered
context is read from the store at request time, so it can be neither stale
nor over-full. -/
theorem list_views_exact (req : Request) (st : Store) :
    (PostListView req st).1 =
      Response.renderedPosts "gallery/index.html" st.posts ∧
    (PostListView req st).2 = st ∧
    ((PostListView req st).1).status = 200 ∧
    (IndexView req st).1 =
      Response.renderedMessages "hello/index.html" st.messages ∧
    (IndexView req st).2 = st ∧
    ((IndexView req st).1).status = 200 :=
  ⟨rfl, rfl, rfl, rfl, rfl, rfl⟩

/-- C6: for every request and every prior store, the `success` handler
returns HTTP 200 rendering the success template. -/
theorem success_renders (req : Request) (st : Store) :
    (success req st).1 = Response.rendered "gallery/success.html" none ∧
    ((success req st).1).status = 200 :=
  ⟨rfl, rfl⟩

/-- C7: the `success` handler is pure rendering — it leaves every stored
`Post`, every stored `Message` and every stored file unchanged. -/
theorem success_frame (req : Request) (st : Store) :
    (success req st).2.posts = st.posts ∧
    (success req st).2.messages = st.messages ∧
    (success req st).2.files = st.files :=
  ⟨rfl, rfl, rfl⟩

/-- C8: the routing tables map exactly the listed paths to the named
handlers — gallery: `` ↦ `PostListView` as `index`, `image_upload` ↦
`image_upload`, `success` ↦ `success`; hello: `` ↦ `IndexView` as `index`,
`second/` ↦ `second` — under the app namespaces `gallery` and `hello`, and
no other routes exist in these tables. -/
theorem urlpatterns_exact :
    gallery_app_name = "gallery" ∧
    gallery_urlpatterns.map (fun r => (r.path, r.handler, r.name)) =
      [("", "PostListView", "index"),
       ("image_upload", "image_upload", "image_upload"),
       ("success", "success", "success")] ∧
    hello_app_name = "hello" ∧
    hello_urlpatterns.map (fun r => (r.path, r.handler, r.name)) =
      [("", "IndexView", "index"), ("second/", "second", "second")] := by
  refine ⟨rfl, ?_, rfl, ?_⟩ <;> rfl

/-- C9: every persisted `Message` has a `message_text` of at most 250
characters, carries the submitted text, and has its `date` field set to the
creation time rather than any caller-supplied value. -/
theorem message_create_spec (text : String) (now : Nat) (m : Message)
    (h : Message.create text now = some m) :
    m.message_text = text ∧ m.message_text.length ≤ 250 ∧ m.date = now := by
  unfold Message.create at h
  by_cases hl : text.length ≤ 250
  · rw [if_pos hl] at h
    cases h
    exact ⟨rfl, hl, rfl⟩
  · rw [if_neg hl] at h
    cases h

/-- Witness for C9 at a concrete message creation. -/
theorem message_create_spec_witness :
    (Message.mk "hi" 7).message_text = "hi" ∧
    (Message.mk "hi" 7).message_text.length ≤ 250 ∧
    (Message.mk "hi" 7).date = 7 :=
  message_create_spec "hi" 7 ⟨"hi", 7⟩ (by decide)

/-- C10: a request to `image_upload` with any method other than POST (e.g.
HEAD or PUT) takes the empty-form path: it renders the upload template with
the unbound form at HTTP 200, creates no `Post`, and issues no redirect. -/
theorem image_upload_non_post (req : Request) (st : Store)
    (hm : req.method ≠ "POST") :
    (image_upload req st).1 =
      Response.rendered "gallery/upload.html" (some UploadForm.empty) ∧
    ((image_upload req st).1).status = 200 ∧
    (image_upload req st).2 = st := by
  simp [image_upload, hm, Response.status]

/-- Witness for C10 at a concrete HEAD request. -/
theorem image_upload_non_post_witness :
    (image_upload ⟨"HEAD", [], []⟩ Store.empty).1 =
      Response.rendered "gallery/upload.html" (some UploadForm.empty) ∧
    ((image_upload ⟨"HEAD", [], []⟩ Store.empty).1).status = 200 ∧
    (image_upload ⟨"HEAD", [], []⟩ Store.empty).2 = Store.empty :=
  image_upload_non_post ⟨"HEAD", [], []⟩ Store.empty (by decide)

end MyProject
